import Mathlib

/-!
Verification of the offline-first sync engine of the local-chat repository.

Shallow embedding of:
  * the client IndexedDB wrapper (`client/js/db/index.js`),
  * the client sync service (`client/js/services/sync.js`),
  * the server reconciliation routes (`server/routes/sync.js`) together with
    the SQL queries they use (server `db/index.js`) and the shared
    validation rules (`shared/validation/*`).

Modelling conventions:
  * ISO-8601 timestamps are modelled as `Nat`; the JavaScript comparison
    `new Date(a) > new Date(b)` becomes `a > b` (valid ISO strings compare
    consistently with their numeric time values).
  * JavaScript `null`/`undefined` on a field becomes `Option.none`.
  * The record stores (IndexedDB object stores, SQLite tables) are lists of
    records; lookups by unique id mirror the unique indexes of the source.
-/

/-- Sync status of a client record (`SYNC_STATUS` in `shared/constants.js`:
`local`, `pending`, `synced`).  `local` is a Lean keyword, hence `localOnly`. -/
inductive SyncStatus
  | localOnly
  | pending
  | synced
deriving DecidableEq, Repr

/-- Wire representation of a chat, as sent by the server's pull response and
by the client's push payload (`server/routes/sync.js` pull mapping / client
`push()` mapping). -/
structure WireChat where
  id : String
  title : Option String
  createdAt : Nat
  updatedAt : Nat
  deletedAt : Option Nat
deriving DecidableEq, Repr

/-- Wire representation of a message. -/
structure WireMessage where
  id : String
  chatId : String
  role : String
  content : String
  createdAt : Nat
  updatedAt : Nat
  deletedAt : Option Nat
deriving DecidableEq, Repr

/-- Wire representation of a document (server pull response / push payload). -/
structure WireDocument where
  id : String
  name : String
  type : String
  content : Option String
  createdAt : Nat
  updatedAt : Nat
  deletedAt : Option Nat
deriving DecidableEq, Repr

/-- A chat record in the client's `chats` object store
(`client/js/db/index.js`, `createChat`): keyPath `localId` (auto-increment),
unique index on `id`. -/
structure LocalChat where
  localId : Nat
  id : String
  userId : Option String
  title : Option String
  createdAt : Nat
  updatedAt : Nat
  deletedAt : Option Nat
  syncStatus : SyncStatus
deriving DecidableEq, Repr

/-- A message record in the client's `messages` object store (keyPath `id`).
Messages link to their chat through `chatLocalId`, never through a durable
chat id. -/
structure LocalMessage where
  id : String
  chatLocalId : Nat
  role : String
  content : String
  createdAt : Nat
  updatedAt : Nat
  deletedAt : Option Nat
  syncStatus : SyncStatus
deriving DecidableEq, Repr

/-- A document record in the client's `documents` object store (keyPath `id`). -/
structure LocalDocument where
  id : String
  userId : Option String
  name : String
  type : String
  content : Option String
  embedding : Option String
  createdAt : Nat
  updatedAt : Nat
  deletedAt : Option Nat
  syncStatus : SyncStatus
deriving DecidableEq, Repr

/-- The client-side database: the three record stores, the auto-increment
counter backing the `chats` store's `localId` keyPath, and the `syncMeta`
entry `lastSyncAt` (absent = never synced). -/
structure ClientDB where
  chats : List LocalChat
  messages : List LocalMessage
  documents : List LocalDocument
  nextLocalId : Nat
  lastSyncAt : Option Nat
deriving DecidableEq, Repr

/-- `getLastSyncAt` (`client/js/db/index.js`). -/
def getLastSyncAt (db : ClientDB) : Option Nat :=
  db.lastSyncAt

/-- `setLastSyncAt` (`client/js/db/index.js`). -/
def setLastSyncAt (db : ClientDB) (timestamp : Nat) : ClientDB :=
  { db with lastSyncAt := some timestamp }

/-- True for the statuses collected by `getPendingSyncRecords`
(`syncStatus` index queried for `local` and then for `pending`). -/
def isUnsyncedStatus : SyncStatus → Bool
  | SyncStatus.localOnly => true
  | SyncStatus.pending => true
  | SyncStatus.synced => false

/-- Result shape of `getPendingSyncRecords`. -/
structure PendingRecords where
  chats : List LocalChat
  messages : List LocalMessage
  documents : List LocalDocument
deriving DecidableEq, Repr

/-- `getPendingSyncRecords` (`client/js/db/index.js`): per store, the records
with status `local` followed by the records with status `pending`. -/
def getPendingSyncRecords (db : ClientDB) : PendingRecords :=
  { chats :=
      db.chats.filter (fun c => c.syncStatus = SyncStatus.localOnly) ++
      db.chats.filter (fun c => c.syncStatus = SyncStatus.pending)
    messages :=
      db.messages.filter (fun m => m.syncStatus = SyncStatus.localOnly) ++
      db.messages.filter (fun m => m.syncStatus = SyncStatus.pending)
    documents :=
      db.documents.filter (fun d => d.syncStatus = SyncStatus.localOnly) ++
      db.documents.filter (fun d => d.syncStatus = SyncStatus.pending) }

/-- `markAsSynced('chats', ids)` (`client/js/db/index.js`): every chat whose
durable id is in `ids` gets `syncStatus = synced`. -/
def markChatsAsSynced (db : ClientDB) (ids : List String) : ClientDB :=
  { db with chats := db.chats.map (fun c =>
      if c.id ∈ ids then { c with syncStatus := SyncStatus.synced } else c) }

/-- `markAsSynced('messages', ids)`. -/
def markMessagesAsSynced (db : ClientDB) (ids : List String) : ClientDB :=
  { db with messages := db.messages.map (fun m =>
      if m.id ∈ ids then { m with syncStatus := SyncStatus.synced } else m) }

/-- `mergeChat(serverChat, userId)` (`client/js/db/index.js`): last-write-wins
merge of a pulled chat.  Returns the updated store and whether a write
happened.  On update only `title`, `updatedAt`, `deletedAt`, `syncStatus`
change; on insert the new row is stamped with the `userId` argument. -/
def mergeChat (db : ClientDB) (serverChat : WireChat) (userId : Option String) :
    ClientDB × Bool :=
  match db.chats.find? (fun c => c.id == serverChat.id) with
  | some existing =>
      if serverChat.updatedAt > existing.updatedAt then
        ({ db with chats := db.chats.map (fun c =>
            if c.id == serverChat.id then
              { c with title := serverChat.title
                       updatedAt := serverChat.updatedAt
                       deletedAt := serverChat.deletedAt
                       syncStatus := SyncStatus.synced }
            else c) }, true)
      else
        (db, false)
  | none =>
      ({ db with
          chats := db.chats ++
            [{ localId := db.nextLocalId
               id := serverChat.id
               userId := userId
               title := serverChat.title
               createdAt := serverChat.createdAt
               updatedAt := serverChat.updatedAt
               deletedAt := serverChat.deletedAt
               syncStatus := SyncStatus.synced }]
          nextLocalId := db.nextLocalId + 1 }, true)

/-- `mergeMessage(serverMsg)` (`client/js/db/index.js`): last-write-wins merge
of a pulled message; a new message resolves the parent chat's `localId` by
durable chat id and is skipped when the parent chat is absent. -/
def mergeMessage (db : ClientDB) (serverMsg : WireMessage) : ClientDB × Bool :=
  match db.messages.find? (fun m => m.id == serverMsg.id) with
  | some existing =>
      if serverMsg.updatedAt > existing.updatedAt then
        ({ db with messages := db.messages.map (fun m =>
            if m.id == serverMsg.id then
              { m with content := serverMsg.content
                       updatedAt := serverMsg.updatedAt
                       deletedAt := serverMsg.deletedAt
                       syncStatus := SyncStatus.synced }
            else m) }, true)
      else
        (db, false)
  | none =>
      match db.chats.find? (fun c => c.id == serverMsg.chatId) with
      | none => (db, false)
      | some chat =>
          ({ db with messages := db.messages ++
              [{ id := serverMsg.id
                 chatLocalId := chat.localId
                 role := serverMsg.role
                 content := serverMsg.content
                 createdAt := serverMsg.createdAt
                 updatedAt := serverMsg.updatedAt
                 deletedAt := serverMsg.deletedAt
                 syncStatus := SyncStatus.synced }] }, true)

/-- `mergeDocument(serverDoc, userId)` (`client/js/db/index.js`).  Defined in
the client database, but never invoked by the sync service's `pull()`. -/
def mergeDocument (db : ClientDB) (serverDoc : WireDocument)
    (userId : Option String) : ClientDB × Bool :=
  match db.documents.find? (fun d => d.id == serverDoc.id) with
  | some existing =>
      if serverDoc.updatedAt > existing.updatedAt then
        ({ db with documents := db.documents.map (fun d =>
            if d.id == serverDoc.id then
              { d with name := serverDoc.name
                       content := serverDoc.content
                       updatedAt := serverDoc.updatedAt
                       deletedAt := serverDoc.deletedAt
                       syncStatus := SyncStatus.synced }
            else d) }, true)
      else
        (db, false)
  | none =>
      ({ db with documents := db.documents ++
          [{ id := serverDoc.id
             userId := userId
             name := serverDoc.name
             type := serverDoc.type
             content := serverDoc.content
             embedding := none
             createdAt := serverDoc.createdAt
             updatedAt := serverDoc.updatedAt
             deletedAt := serverDoc.deletedAt
             syncStatus := SyncStatus.synced }] }, true)

/-- One per-record acknowledgement entry in the push response
(`{ id, synced: true }`). -/
structure PushAck where
  id : String
  synced : Bool
deriving DecidableEq, Repr

/-- The per-kind `results` object of the push response. -/
structure PushResults where
  chats : List PushAck
  messages : List PushAck
  documents : List PushAck
deriving DecidableEq, Repr

/-- One entry of the push response's `errors` list
(`{ type, id, error | errors }`); the payload is summarised by a message
string matching the source's error strings. -/
structure PushErr where
  type : String
  id : String
  error : String
deriving DecidableEq, Repr

/-- Push response as consumed by the client (`syncedAt`, `results`). -/
structure PushResponse where
  syncedAt : Nat
  results : PushResults
deriving DecidableEq, Repr

/-- Pull response (`syncedAt` plus the three record arrays). -/
structure PullResponse where
  syncedAt : Nat
  chats : List WireChat
  messages : List WireMessage
  documents : List WireDocument
deriving DecidableEq, Repr

/-- The body the client sends to `POST /api/sync/push`
(`syncApi.push({ chats, messages: validMessages })` in
`client/js/services/sync.js`): only chats and messages, no documents key. -/
structure PushPayload where
  chats : List WireChat
  messages : List WireMessage
deriving DecidableEq, Repr

/-- The chat projection built by `push()` in `client/js/services/sync.js`. -/
def chatToWire (c : LocalChat) : WireChat :=
  { id := c.id
    title := c.title
    createdAt := c.createdAt
    updatedAt := c.updatedAt
    deletedAt := c.deletedAt }

/-- The `chatLocalId → durable chat id` resolution performed by `push()`
(`db.getChat(... .chatLocalId)` followed by `msg.chatId = chat.id`).  Local
messages carry no `chatId` field, so the lookup always runs. -/
def resolveMessageChatId (db : ClientDB) (m : LocalMessage) : Option String :=
  (db.chats.find? (fun c => c.localId == m.chatLocalId)).map (fun c => c.id)

/-- The payload `push()` builds and transmits: all pending chats, and the
pending messages whose parent chat resolved to a durable id
(`messages.filter(m => m.chatId)`). -/
def clientPushPayload (db : ClientDB) : PushPayload :=
  let pending := getPendingSyncRecords db
  { chats := pending.chats.map chatToWire
    messages := pending.messages.filterMap (fun m =>
      (resolveMessageChatId db m).map (fun cid =>
        { id := m.id
          chatId := cid
          role := m.role
          content := m.content
          createdAt := m.createdAt
          updatedAt := m.updatedAt
          deletedAt := m.deletedAt })) }

/-- `SyncService.push()` (`client/js/services/sync.js`).  The network is
modelled by returning the transmitted payload (`none` = no request made) and
taking the server's response as an argument.  On a transmitted push the
acknowledged ids are marked synced and `lastSyncAt` is set to the response's
`syncedAt`; the returned count is the number of acknowledged records. -/
def clientPush (db : ClientDB) (resp : PushResponse) :
    Option PushPayload × ClientDB × Nat :=
  let pending := getPendingSyncRecords db
  if pending.chats.length = 0 ∧ pending.messages.length = 0 then
    (none, db, 0)
  else
    let payload := clientPushPayload db
    let syncedChatIds := (resp.results.chats.filter (fun r => r.synced)).map (fun r => r.id)
    let syncedMessageIds := (resp.results.messages.filter (fun r => r.synced)).map (fun r => r.id)
    let db1 := markChatsAsSynced db syncedChatIds
    let db2 := markMessagesAsSynced db1 syncedMessageIds
    let db3 := setLastSyncAt db2 resp.syncedAt
    (some payload, db3, syncedChatIds.length + syncedMessageIds.length)

/-- The `since` value `pull()` sends to the server:
`const lastSyncAt = await db.getLastSyncAt()`. -/
def clientPullSince (db : ClientDB) : Option Nat :=
  getLastSyncAt db

/-- `SyncService.pull()` (`client/js/services/sync.js`): merge every chat of
the response via `db.mergeChat(chat)` — called with a single argument, so the
`userId` parameter of `mergeChat` is `undefined` — then every message via
`db.mergeMessage(msg)`, then set `lastSyncAt` to the response's `syncedAt`.
The response's `documents` array is never read.  Returns the count of
records actually changed. -/
def clientPull (db : ClientDB) (resp : PullResponse) : ClientDB × Nat :=
  let stepChat := fun (acc : ClientDB × Nat) (c : WireChat) =>
    let merged := mergeChat acc.1 c none
    (merged.1, if merged.2 then acc.2 + 1 else acc.2)
  let afterChats := resp.chats.foldl stepChat (db, 0)
  let stepMsg := fun (acc : ClientDB × Nat) (m : WireMessage) =>
    let merged := mergeMessage acc.1 m
    (merged.1, if merged.2 then acc.2 + 1 else acc.2)
  let afterMsgs := resp.messages.foldl stepMsg afterChats
  (setLastSyncAt afterMsgs.1 resp.syncedAt, afterMsgs.2)

/-- Events emitted through the client event bus during `sync()`. -/
inductive SyncEvent
  | syncStarted
  | syncCompleted
  | syncError
  | chatsUpdated
deriving DecidableEq, Repr

/-- `SyncService.sync()` (`client/js/services/sync.js`), successful path.
Inputs mirror the guards read at entry: the service's `isSyncing` flag,
`state.isOnline`, and `state.user` (the authenticated principal).  Output:
the `{ pushed, pulled }` result, the database after the run, the events
emitted, and the number of network requests issued. -/
def clientSync (isSyncing : Bool) (isOnline : Bool) (user : Option String)
    (db : ClientDB) (pushResp : PushResponse) (pullResp : PullResponse) :
    (Nat × Nat) × ClientDB × List SyncEvent × Nat :=
  if isSyncing then ((0, 0), db, [], 0)
  else if isOnline = false then ((0, 0), db, [], 0)
  else if user = none then ((0, 0), db, [], 0)
  else
    let pushOut := clientPush db pushResp
    let pushCalls := match pushOut.1 with
      | some _ => 1
      | none => 0
    let pullOut := clientPull pushOut.2.1 pullResp
    let events :=
      [SyncEvent.syncStarted] ++
      (if pullOut.2 > 0 then [SyncEvent.chatsUpdated] else []) ++
      [SyncEvent.syncCompleted]
    ((pushOut.2.2, pullOut.2), pullOut.1, events, pushCalls + 1)

/-- A row of the server's `chats` table (`server/db/schema.sql` /
`server/db/index.js`): `user_id` is non-null (chats are created with the
caller's id). -/
structure SChat where
  id : String
  userId : String
  title : Option String
  createdAt : Nat
  updatedAt : Nat
  deletedAt : Option Nat
deriving DecidableEq, Repr

/-- A row of the server's `messages` table; ownership is indirect, through
`chat_id`. -/
structure SMessage where
  id : String
  chatId : String
  role : String
  content : String
  createdAt : Nat
  updatedAt : Nat
  deletedAt : Option Nat
deriving DecidableEq, Repr

/-- A row of the server's `documents` table. -/
structure SDocument where
  id : String
  userId : String
  name : String
  type : String
  content : Option String
  embedding : Option String
  createdAt : Nat
  updatedAt : Nat
  deletedAt : Option Nat
deriving DecidableEq, Repr

/-- The server's SQLite store. -/
structure ServerStore where
  chats : List SChat
  messages : List SMessage
  documents : List SDocument
deriving DecidableEq, Repr

/-- `validateChat({ title })` against `chatRules`
(`shared/validation/chat.js`): `title` is optional, must be a string, max
length 200; an absent/null/empty value skips the checks. -/
def validateChatTitle (title : Option String) : Bool :=
  match title with
  | none => true
  | some t => if t = "" then true else t.length ≤ 200

/-- `validateMessage({ role, content })` against `messageRules`
(`shared/validation/message.js`): `role` required, one of
user/assistant/system; `content` required, length 1..100000. -/
def validateMessageFields (role : String) (content : String) : Bool :=
  (decide (role = "user" ∨ role = "assistant" ∨ role = "system")) &&
  (decide (¬ content = "")) && (decide (content.length ≤ 100000))

/-- The inline document check of `processDocuments`
(`if (!doc.name || !doc.type)`); the empty string models a falsy value. -/
def validateDocumentFields (name : String) (type : String) : Bool :=
  (decide (¬ name = "")) && (decide (¬ type = ""))

/-- JavaScript `x || null` on an optional string: an empty string is falsy
and becomes null. -/
def jsStringOrNull (x : Option String) : Option String :=
  match x with
  | some "" => none
  | other => other

/-- One iteration of the `processChats` loop (`server/routes/sync.js`):
validate the title; if a chat with that id exists, check the stored
`user_id` against the caller and apply strict last-write-wins on
`title`/`updated_at`/`deleted_at`; otherwise insert a new row owned by the
caller.  The accumulator carries the store, the `results.chats` list and the
shared `errors` list. -/
def chatStep (caller : String)
    (acc : ServerStore × List PushAck × List PushErr) (c : WireChat) :
    ServerStore × List PushAck × List PushErr :=
  let st := acc.1
  let res := acc.2.1
  let errs := acc.2.2
  if validateChatTitle c.title = false then
    (st, res, errs ++ [{ type := "chat", id := c.id,
                         error := "Title must be at most 200 characters" }])
  else
    match st.chats.find? (fun x => x.id == c.id) with
    | some existing =>
        if existing.userId ≠ caller then
          (st, res, errs ++ [{ type := "chat", id := c.id, error := "Unauthorized" }])
        else
          let st' :=
            if c.updatedAt > existing.updatedAt then
              { st with chats := st.chats.map (fun x =>
                  if x.id == c.id then
                    { x with title := c.title
                             updatedAt := c.updatedAt
                             deletedAt := c.deletedAt }
                  else x) }
            else st
          (st', res ++ [{ id := c.id, synced := true }], errs)
    | none =>
        ({ st with chats := st.chats ++
            [{ id := c.id
               userId := caller
               title := jsStringOrNull c.title
               createdAt := c.createdAt
               updatedAt := c.updatedAt
               deletedAt := c.deletedAt }] },
         res ++ [{ id := c.id, synced := true }], errs)

/-- One iteration of the `processMessages` loop (`server/routes/sync.js`):
validate role/content; look up the chat named by the *incoming payload's*
`chatId` and reject when it is missing or not owned by the caller; then
strict last-write-wins against any stored message with the same id
(updating `content`/`updated_at`/`deleted_at` only), or insert. -/
def messageStep (caller : String)
    (acc : ServerStore × List PushAck × List PushErr) (m : WireMessage) :
    ServerStore × List PushAck × List PushErr :=
  let st := acc.1
  let res := acc.2.1
  let errs := acc.2.2
  if validateMessageFields m.role m.content = false then
    (st, res, errs ++ [{ type := "message", id := m.id,
                         error := "Invalid role or content" }])
  else
    match st.chats.find? (fun c => c.id == m.chatId) with
    | none =>
        (st, res, errs ++ [{ type := "message", id := m.id,
                             error := "Chat not found or unauthorized" }])
    | some chat =>
        if chat.userId ≠ caller then
          (st, res, errs ++ [{ type := "message", id := m.id,
                               error := "Chat not found or unauthorized" }])
        else
          match st.messages.find? (fun x => x.id == m.id) with
          | some existing =>
              let st' :=
                if m.updatedAt > existing.updatedAt then
                  { st with messages := st.messages.map (fun x =>
                      if x.id == m.id then
                        { x with content := m.content
                                 updatedAt := m.updatedAt
                                 deletedAt := m.deletedAt }
                      else x) }
                else st
              (st', res ++ [{ id := m.id, synced := true }], errs)
          | none =>
              ({ st with messages := st.messages ++
                  [{ id := m.id
                     chatId := m.chatId
                     role := m.role
                     content := m.content
                     createdAt := m.createdAt
                     updatedAt := m.updatedAt
                     deletedAt := m.deletedAt }] },
               res ++ [{ id := m.id, synced := true }], errs)

/-- One iteration of the `processDocuments` loop (`server/routes/sync.js`). -/
def documentStep (caller : String)
    (acc : ServerStore × List PushAck × List PushErr) (d : WireDocument) :
    ServerStore × List PushAck × List PushErr :=
  let st := acc.1
  let res := acc.2.1
  let errs := acc.2.2
  if validateDocumentFields d.name d.type = false then
    (st, res, errs ++ [{ type := "document", id := d.id,
                         error := "Name and type required" }])
  else
    match st.documents.find? (fun x => x.id == d.id) with
    | some existing =>
        if existing.userId ≠ caller then
          (st, res, errs ++ [{ type := "document", id := d.id, error := "Unauthorized" }])
        else
          let st' :=
            if d.updatedAt > existing.updatedAt then
              { st with documents := st.documents.map (fun x =>
                  if x.id == d.id then
                    { x with name := d.name
                             content := jsStringOrNull d.content
                             updatedAt := d.updatedAt
                             deletedAt := d.deletedAt }
                  else x) }
            else st
          (st', res ++ [{ id := d.id, synced := true }], errs)
    | none =>
        ({ st with documents := st.documents ++
            [{ id := d.id
               userId := caller
               name := d.name
               type := d.type
               content := jsStringOrNull d.content
               embedding := none
               createdAt := d.createdAt
               updatedAt := d.updatedAt
               deletedAt := d.deletedAt }] },
         res ++ [{ id := d.id, synced := true }], errs)

/-- The `processChats` transaction body: fold `chatStep` over the batch. -/
def processChats (caller : String)
    (acc : ServerStore × List PushAck × List PushErr) (batch : List WireChat) :
    ServerStore × List PushAck × List PushErr :=
  batch.foldl (chatStep caller) acc

/-- The `processMessages` transaction body. -/
def processMessages (caller : String)
    (acc : ServerStore × List PushAck × List PushErr) (batch : List WireMessage) :
    ServerStore × List PushAck × List PushErr :=
  batch.foldl (messageStep caller) acc

/-- The `processDocuments` transaction body. -/
def processDocuments (caller : String)
    (acc : ServerStore × List PushAck × List PushErr) (batch : List WireDocument) :
    ServerStore × List PushAck × List PushErr :=
  batch.foldl (documentStep caller) acc

/-- Full push response: `{ syncedAt, results, errors }`. -/
structure ServerPushResponse where
  syncedAt : Nat
  results : PushResults
  errors : List PushErr
deriving DecidableEq, Repr

/-- `syncRoutes.push` (`server/routes/sync.js`): run the three per-kind
transactions in order (chats, messages, documents) over one shared error
list, then answer with a freshly generated `syncedAt` (the `now` argument)
and the per-kind acknowledgement lists. -/
def serverPush (caller : String) (st : ServerStore)
    (chats : List WireChat) (messages : List WireMessage)
    (documents : List WireDocument) (now : Nat) :
    ServerStore × ServerPushResponse :=
  let afterChats := processChats caller (st, [], []) chats
  let afterMessages := processMessages caller (afterChats.1, [], afterChats.2.2) messages
  let afterDocuments := processDocuments caller (afterMessages.1, [], afterMessages.2.2) documents
  (afterDocuments.1,
   { syncedAt := now
     results := { chats := afterChats.2.1
                  messages := afterMessages.2.1
                  documents := afterDocuments.2.1 }
     errors := afterDocuments.2.2 })

/-- The epoch default for a missing `since`
(`since || '1970-01-01T00:00:00.000Z'`). -/
def epochTime : Nat := 0

/-- `chatQueries.findUpdatedSince` (server `db/index.js`):
`SELECT * FROM chats WHERE user_id = ? AND updated_at > ?`. -/
def chatsUpdatedSince (st : ServerStore) (ownerId : String) (t : Nat) :
    List SChat :=
  st.chats.filter (fun c => c.userId == ownerId && decide (c.updatedAt > t))

/-- `messageQueries.findUpdatedSince`: messages joined to their chat,
filtered by the chat's owner (`chats.id` is the primary key, so the join is
an existence test). -/
def messagesUpdatedSince (st : ServerStore) (ownerId : String) (t : Nat) :
    List SMessage :=
  st.messages.filter (fun m =>
    st.chats.any (fun c => c.id == m.chatId && c.userId == ownerId) &&
    decide (m.updatedAt > t))

/-- `documentQueries.findUpdatedSince`. -/
def documentsUpdatedSince (st : ServerStore) (ownerId : String) (t : Nat) :
    List SDocument :=
  st.documents.filter (fun d => d.userId == ownerId && decide (d.updatedAt > t))

/-- The pull response's chat projection (`server/routes/sync.js`):
`deleted_at` is included, `user_id` is not. -/
def sChatToWire (c : SChat) : WireChat :=
  { id := c.id
    title := c.title
    createdAt := c.createdAt
    updatedAt := c.updatedAt
    deletedAt := c.deletedAt }

/-- The pull response's message projection. -/
def sMessageToWire (m : SMessage) : WireMessage :=
  { id := m.id
    chatId := m.chatId
    role := m.role
    content := m.content
    createdAt := m.createdAt
    updatedAt := m.updatedAt
    deletedAt := m.deletedAt }

/-- The pull response's document projection (`embedding` is not served). -/
def sDocumentToWire (d : SDocument) : WireDocument :=
  { id := d.id
    name := d.name
    type := d.type
    content := d.content
    createdAt := d.createdAt
    updatedAt := d.updatedAt
    deletedAt := d.deletedAt }

/-- `syncRoutes.pull` (`server/routes/sync.js`): all records owned by the
caller with `updated_at` strictly beyond `since` (epoch when `since` is
null), plus `syncedAt` generated at query time (the `now` argument). -/
def serverPull (st : ServerStore) (ownerId : String) (since : Option Nat)
    (now : Nat) : PullResponse :=
  let sinceTime := match since with
    | some t => t
    | none => epochTime
  { syncedAt := now
    chats := (chatsUpdatedSince st ownerId sinceTime).map sChatToWire
    messages := (messagesUpdatedSince st ownerId sinceTime).map sMessageToWire
    documents := (documentsUpdatedSince st ownerId sinceTime).map sDocumentToWire }

/-- Phase of one `sync()` invocation between its suspension points
(`client/js/services/sync.js`).  `entry` is the synchronous prefix up to and
including `this.isSyncing = true` (no `await` separates the guard from the
assignment); `doPush`/`doPull` are the awaited network requests;
`finishing` is the `finally` block clearing the flag.  `doneZero` is an
invocation that returned the zero-effect `{ pushed: 0, pulled: 0 }` from the
`isSyncing` guard; `doneCompleted` ran the full push/pull sequence. -/
inductive SyncPhase
  | entry
  | doPush
  | doPull
  | finishing
  | doneZero
  | doneCompleted
deriving DecidableEq, Repr

/-- A network request observed on the wire during orchestration. -/
inductive NetCall
  | pushCall
  | pullCall
deriving DecidableEq, Repr

/-- Configuration of the single-threaded client event loop: the service's
`isSyncing` flag, the phase of each outstanding `sync()` invocation, and the
network trace so far. -/
structure OrchConfig where
  flag : Bool
  tasks : List SyncPhase
  trace : List NetCall
deriving DecidableEq, Repr

/-- Run the next atomic step of invocation `i` (steps of distinct
invocations interleave only at `await` boundaries, per the event-loop
model).  An `entry` step that observes `isSyncing = true` completes
immediately with the zero result and touches nothing else. -/
def orchStep (cfg : OrchConfig) (i : Nat) : OrchConfig :=
  match cfg.tasks.get? i with
  | none => cfg
  | some SyncPhase.entry =>
      if cfg.flag then
        { cfg with tasks := cfg.tasks.set i SyncPhase.doneZero }
      else
        { flag := true
          tasks := cfg.tasks.set i SyncPhase.doPush
          trace := cfg.trace }
  | some SyncPhase.doPush =>
      { cfg with tasks := cfg.tasks.set i SyncPhase.doPull
                 trace := cfg.trace ++ [NetCall.pushCall] }
  | some SyncPhase.doPull =>
      { cfg with tasks := cfg.tasks.set i SyncPhase.finishing
                 trace := cfg.trace ++ [NetCall.pullCall] }
  | some SyncPhase.finishing =>
      { flag := false
        tasks := cfg.tasks.set i SyncPhase.doneCompleted
        trace := cfg.trace }
  | some SyncPhase.doneZero => cfg
  | some SyncPhase.doneCompleted => cfg

/-- Run a whole schedule (list of invocation indices) from a configuration. -/
def runSched (cfg : OrchConfig) (sched : List Nat) : OrchConfig :=
  sched.foldl orchStep cfg

/-- Initial configuration for two rapid `sync()` invocations. -/
def twoSyncInit : OrchConfig :=
  { flag := false
    tasks := [SyncPhase.entry, SyncPhase.entry]
    trace := [] }

/-- The schedules in which invocation 1 starts while invocation 0 is
in progress (after 0's entry, before 0's `finally`): invocation 0 runs its
four steps, invocation 1's single entry step lands at any of the three
interior suspension points. -/
def rapidSchedules : List (List Nat) :=
  [[0, 1, 0, 0, 0], [0, 0, 1, 0, 0], [0, 0, 0, 1, 0]]

/-- State of the browser timer queue together with the `SyncService` fields
`syncInterval` and `retryTimeout` (`client/js/services/sync.js`).
`pendingTimers` holds the ids of timeouts that are scheduled and have not
fired or been cleared; `nextId` generates fresh timer ids. -/
structure TimerState where
  nextId : Nat
  pendingTimers : List Nat
  retryTimeout : Option Nat
  syncInterval : Option Nat
deriving DecidableEq, Repr

/-- The retry scheduling of `sync()`'s catch block:
`this.retryTimeout = setTimeout(..., 10000)`.  A fresh timeout is created
and the field is overwritten; no `clearTimeout` is issued for a previously
stored handle. -/
def scheduleRetryOnFailure (s : TimerState) : TimerState :=
  { s with pendingTimers := s.pendingTimers ++ [s.nextId]
           retryTimeout := some s.nextId
           nextId := s.nextId + 1 }

/-- `stopAutoSync()` (`client/js/services/sync.js`): clear the periodic
interval and the stored retry timeout, if any. -/
def stopAutoSync (s : TimerState) : TimerState :=
  let s1 := match s.syncInterval with
    | some h =>
        { s with pendingTimers := s.pendingTimers.filter (fun x => x ≠ h)
                 syncInterval := none }
    | none => s
  match s1.retryTimeout with
  | some h =>
      { s1 with pendingTimers := s1.pendingTimers.filter (fun x => x ≠ h)
                retryTimeout := none }
  | none => s1

/-- A timer queue with no pending timers and no stored handles. -/
def timersInit : TimerState :=
  { nextId := 0, pendingTimers := [], retryTimeout := none, syncInterval := none }

/-- Folding a per-kind push transaction over a split batch. -/
theorem processChats_append (caller : String)
    (acc : ServerStore × List PushAck × List PushErr)
    (l1 l2 : List WireChat) :
    processChats caller acc (l1 ++ l2) =
      processChats caller (processChats caller acc l1) l2 := by
  simp [processChats, List.foldl_append]

/-- Unfolding one step of the chats transaction. -/
theorem processChats_cons (caller : String)
    (acc : ServerStore × List PushAck × List PushErr)
    (c : WireChat) (l : List WireChat) :
    processChats caller acc (c :: l) =
      processChats caller (chatStep caller acc c) l := by
  simp [processChats]

/-- Folding the documents transaction over a split batch. -/
theorem processDocuments_append (caller : String)
    (acc : ServerStore × List PushAck × List PushErr)
    (l1 l2 : List WireDocument) :
    processDocuments caller acc (l1 ++ l2) =
      processDocuments caller (processDocuments caller acc l1) l2 := by
  simp [processDocuments, List.foldl_append]

/-- Unfolding one step of the documents transaction. -/
theorem processDocuments_cons (caller : String)
    (acc : ServerStore × List PushAck × List PushErr)
    (d : WireDocument) (l : List WireDocument) :
    processDocuments caller acc (d :: l) =
      processDocuments caller (documentStep caller acc d) l := by
  simp [processDocuments]

/-- Claim C10: if the client is offline or no principal is authenticated,
`sync()` returns `{ pushed: 0, pulled: 0 }` without any network request,
without touching the database or the checkpoint, and without emitting any
event (in particular no sync-started and no sync-error). -/
theorem sync_offline_or_unauthenticated_guard
    (isSyncing isOnline : Bool) (user : Option String) (db : ClientDB)
    (pushResp : PushResponse) (pullResp : PullResponse)
    (h : isOnline = false ∨ user = none) :
    clientSync isSyncing isOnline user db pushResp pullResp =
      ((0, 0), db, [], 0) := by
  rcases h with h | h <;>
    cases isSyncing <;> cases isOnline <;> simp_all [clientSync]

/-- Witness for C10: a concrete online flag set to false. -/
theorem sync_offline_or_unauthenticated_guard_witness :
    clientSync false false (some "u1")
      { chats := [], messages := [], documents := [],
        nextLocalId := 1, lastSyncAt := some 5 }
      { syncedAt := 9, results := { chats := [], messages := [], documents := [] } }
      { syncedAt := 9, chats := [], messages := [], documents := [] } =
      ((0, 0),
       { chats := [], messages := [], documents := [],
         nextLocalId := 1, lastSyncAt := some 5 }, [], 0) :=
  sync_offline_or_unauthenticated_guard false false (some "u1") _ _ _ (Or.inl rfl)

/-- Claim C1: evaluation of the pull path at the failing input.  With a
principal authenticated, pulling a chat that has no local counterpart
inserts it with `syncStatus = synced` but with `userId = none`: the call
`db.mergeChat(chat)` in `pull()` omits the `userId` argument that
`mergeChat` documents as the current authenticated user's id, so the owner
stamp is `undefined` rather than the merge-time principal. -/
theorem pull_merge_insert_owner_is_unset :
    (clientPull
      { chats := [], messages := [], documents := [],
        nextLocalId := 1, lastSyncAt := some 5 }
      { syncedAt := 50
        chats := [{ id := "01C", title := some "t", createdAt := 10,
                    updatedAt := 20, deletedAt := none }]
        messages := []
        documents := [] }).1.chats =
      [{ localId := 1, id := "01C", userId := none, title := some "t",
         createdAt := 10, updatedAt := 20, deletedAt := none,
         syncStatus := SyncStatus.synced }] := by
  rfl

/-- Counterexample to claim C2: the server store holds message `m1` inside
chat `chatV` owned by `victim`; the caller `attacker` (owner of `chatA`)
pushes a record with the same durable id `m1` but naming `chatA` as parent.
The ownership check consults the payload's `chatId`, not the stored
message's chat, so the stored record is overwritten (`content` becomes
`hacked`) and acknowledged `synced: true` with no unauthorized error. -/
theorem push_message_foreign_owner_overwrite_cex :
    (serverPush "attacker"
      { chats := [{ id := "chatV", userId := "victim", title := some "v",
                    createdAt := 1, updatedAt := 1, deletedAt := none },
                  { id := "chatA", userId := "attacker", title := some "a",
                    createdAt := 1, updatedAt := 1, deletedAt := none }]
        messages := [{ id := "m1", chatId := "chatV", role := "user",
                       content := "secret", createdAt := 1, updatedAt := 1,
                       deletedAt := none }]
        documents := [] }
      []
      [{ id := "m1", chatId := "chatA", role := "user", content := "hacked",
         createdAt := 1, updatedAt := 5, deletedAt := none }]
      [] 99).1.messages =
      [{ id := "m1", chatId := "chatV", role := "user", content := "hacked",
         createdAt := 1, updatedAt := 5, deletedAt := none }] ∧
    (serverPush "attacker"
      { chats := [{ id := "chatV", userId := "victim", title := some "v",
                    createdAt := 1, updatedAt := 1, deletedAt := none },
                  { id := "chatA", userId := "attacker", title := some "a",
                    createdAt := 1, updatedAt := 1, deletedAt := none }]
        messages := [{ id := "m1", chatId := "chatV", role := "user",
                       content := "secret", createdAt := 1, updatedAt := 1,
                       deletedAt := none }]
        documents := [] }
      []
      [{ id := "m1", chatId := "chatA", role := "user", content := "hacked",
         createdAt := 1, updatedAt := 5, deletedAt := none }]
      [] 99).2.errors = [] := by
  constructor <;> rfl

/-- Claim C2 (amended): for chats and documents, a pushed record whose id
exists in the store under another principal is rejected with exactly an
`Unauthorized` error, the store is untouched by that record, and the rest
of the batch is processed unchanged; for messages the check is against the
chat named by the incoming payload's `chatId` (missing or foreign-owned
payload chat is rejected), not against the stored message's chat. -/
theorem push_ownership_rejection_amended :
    (∀ (caller : String) (acc : ServerStore × List PushAck × List PushErr)
       (c : WireChat) (ex : SChat),
       validateChatTitle c.title = true →
       acc.1.chats.find? (fun x => x.id == c.id) = some ex →
       ex.userId ≠ caller →
       chatStep caller acc c =
         (acc.1, acc.2.1,
          acc.2.2 ++ [{ type := "chat", id := c.id, error := "Unauthorized" }])) ∧
    (∀ (caller : String) (acc : ServerStore × List PushAck × List PushErr)
       (pre : List WireChat) (c : WireChat) (post : List WireChat) (ex : SChat),
       validateChatTitle c.title = true →
       (processChats caller acc pre).1.chats.find? (fun x => x.id == c.id) = some ex →
       ex.userId ≠ caller →
       processChats caller acc (pre ++ c :: post) =
         processChats caller
           ((processChats caller acc pre).1,
            (processChats caller acc pre).2.1,
            (processChats caller acc pre).2.2 ++
              [{ type := "chat", id := c.id, error := "Unauthorized" }]) post) ∧
    (∀ (caller : String) (acc : ServerStore × List PushAck × List PushErr)
       (d : WireDocument) (ex : SDocument),
       validateDocumentFields d.name d.type = true →
       acc.1.documents.find? (fun x => x.id == d.id) = some ex →
       ex.userId ≠ caller →
       documentStep caller acc d =
         (acc.1, acc.2.1,
          acc.2.2 ++ [{ type := "document", id := d.id, error := "Unauthorized" }])) ∧
    (∀ (caller : String) (acc : ServerStore × List PushAck × List PushErr)
       (m : WireMessage),
       validateMessageFields m.role m.content = true →
       (acc.1.chats.find? (fun c => c.id == m.chatId) = none ∨
        ∃ chat, acc.1.chats.find? (fun c => c.id == m.chatId) = some chat ∧
          chat.userId ≠ caller) →
       messageStep caller acc m =
         (acc.1, acc.2.1,
          acc.2.2 ++ [{ type := "message", id := m.id,
                        error := "Chat not found or unauthorized" }])) := by
  have hchat : ∀ (caller : String) (acc : ServerStore × List PushAck × List PushErr)
      (c : WireChat) (ex : SChat),
      validateChatTitle c.title = true →
      acc.1.chats.find? (fun x => x.id == c.id) = some ex →
      ex.userId ≠ caller →
      chatStep caller acc c =
        (acc.1, acc.2.1,
         acc.2.2 ++ [{ type := "chat", id := c.id, error := "Unauthorized" }]) := by
    intro caller acc c ex hv hf hne
    simp [chatStep, hv, hf, hne]
  refine ⟨hchat, ?_, ?_, ?_⟩
  · intro caller acc pre c post ex hv hf hne
    rw [processChats_append, processChats_cons,
        hchat caller (processChats caller acc pre) c ex hv hf hne]
  · intro caller acc d ex hv hf hne
    simp [documentStep, hv, hf, hne]
  · intro caller acc m hv hcase
    rcases hcase with hnone | ⟨chat, hfind, hne⟩
    · simp [messageStep, hv, hnone]
    · simp [messageStep, hv, hfind, hne]

/-- Witness for C2 (amended): concrete foreign-owned chat and
payload-foreign message, each rejected with the source's error string. -/
theorem push_ownership_rejection_amended_witness :
    chatStep "attacker"
      ({ chats := [{ id := "c1", userId := "victim", title := none,
                     createdAt := 1, updatedAt := 2, deletedAt := none }],
         messages := [], documents := [] }, [], [])
      { id := "c1", title := some "t", createdAt := 1, updatedAt := 9,
        deletedAt := none } =
      ({ chats := [{ id := "c1", userId := "victim", title := none,
                     createdAt := 1, updatedAt := 2, deletedAt := none }],
         messages := [], documents := [] }, [],
       [{ type := "chat", id := "c1", error := "Unauthorized" }]) ∧
    messageStep "attacker"
      ({ chats := [{ id := "c1", userId := "victim", title := none,
                     createdAt := 1, updatedAt := 2, deletedAt := none }],
         messages := [], documents := [] }, [], [])
      { id := "m1", chatId := "c1", role := "user", content := "x",
        createdAt := 1, updatedAt := 9, deletedAt := none } =
      ({ chats := [{ id := "c1", userId := "victim", title := none,
                     createdAt := 1, updatedAt := 2, deletedAt := none }],
         messages := [], documents := [] }, [],
       [{ type := "message", id := "m1",
          error := "Chat not found or unauthorized" }]) := by
  constructor
  · exact push_ownership_rejection_amended.1 "attacker" _ _
      { id := "c1", userId := "victim", title := none,
        createdAt := 1, updatedAt := 2, deletedAt := none }
      (by decide) (by decide) (by decide)
  · exact push_ownership_rejection_amended.2.2.2 "attacker" _ _
      (by decide)
      (Or.inr ⟨{ id := "c1", userId := "victim", title := none,
                 createdAt := 1, updatedAt := 2, deletedAt := none },
               by decide, by decide⟩)

/-- Counterexample to claim C3: a successful push of one pending chat
moves the stored checkpoint from 5 to the push response's `syncedAt` 10 —
`push()` ends with `db.setLastSyncAt(result.syncedAt)` on the very value
`pull()` reads as its `since` bound, so the checkpoint does not survive a
push unchanged. -/
theorem push_advances_pull_checkpoint_cex :
    getLastSyncAt
      { chats := [{ localId := 1, id := "c1", userId := some "u1",
                    title := some "t", createdAt := 1, updatedAt := 2,
                    deletedAt := none, syncStatus := SyncStatus.pending }],
        messages := [], documents := [], nextLocalId := 2,
        lastSyncAt := some 5 } = some 5 ∧
    (clientPush
      { chats := [{ localId := 1, id := "c1", userId := some "u1",
                    title := some "t", createdAt := 1, updatedAt := 2,
                    deletedAt := none, syncStatus := SyncStatus.pending }],
        messages := [], documents := [], nextLocalId := 2,
        lastSyncAt := some 5 }
      { syncedAt := 10,
        results := { chats := [{ id := "c1", synced := true }],
                     messages := [], documents := [] } }).1.isSome = true ∧
    clientPullSince
      (clientPush
        { chats := [{ localId := 1, id := "c1", userId := some "u1",
                      title := some "t", createdAt := 1, updatedAt := 2,
                      deletedAt := none, syncStatus := SyncStatus.pending }],
          messages := [], documents := [], nextLocalId := 2,
          lastSyncAt := some 5 }
        { syncedAt := 10,
          results := { chats := [{ id := "c1", synced := true }],
                       messages := [], documents := [] } }).2.1 = some 10 := by
  exact ⟨rfl, rfl, rfl⟩

/-- Claim C3 (amended): a push that transmits a payload (pending chats or
messages nonempty) sets the stored checkpoint to the push response's
server-reported `syncedAt` — the very value the next pull reads as `since`;
a push with nothing to transmit leaves the database untouched; a completed
pull sets the checkpoint to the pull response's server-reported `syncedAt`. -/
theorem checkpoint_update_amended :
    (∀ (db : ClientDB) (resp : PushResponse),
       ¬((getPendingSyncRecords db).chats.length = 0 ∧
         (getPendingSyncRecords db).messages.length = 0) →
       getLastSyncAt (clientPush db resp).2.1 = some resp.syncedAt) ∧
    (∀ (db : ClientDB) (resp : PushResponse),
       (getPendingSyncRecords db).chats.length = 0 ∧
       (getPendingSyncRecords db).messages.length = 0 →
       clientPush db resp = (none, db, 0)) ∧
    (∀ (db : ClientDB) (resp : PullResponse),
       getLastSyncAt (clientPull db resp).1 = some resp.syncedAt) := by
  refine ⟨?_, ?_, ?_⟩
  · intro db resp h
    simp only [List.length_eq_zero] at h
    simp [clientPush, h, setLastSyncAt, getLastSyncAt]
  · intro db resp h
    have h1 := List.length_eq_zero.mp h.1
    have h2 := List.length_eq_zero.mp h.2
    simp [clientPush, h1, h2]
  · intro db resp
    simp [clientPull, setLastSyncAt, getLastSyncAt]

/-- Witness for C3 (amended): the nonempty-pending conjunct at a concrete
database and response. -/
theorem checkpoint_update_amended_witness :
    getLastSyncAt
      (clientPush
        { chats := [{ localId := 1, id := "c1", userId := some "u1",
                      title := some "t", createdAt := 1, updatedAt := 2,
                      deletedAt := none, syncStatus := SyncStatus.pending }],
          messages := [], documents := [], nextLocalId := 2,
          lastSyncAt := some 5 }
        { syncedAt := 10,
          results := { chats := [{ id := "c1", synced := true }],
                       messages := [], documents := [] } }).2.1 = some 10 :=
  checkpoint_update_amended.1 _ _ (by decide)

/-- Counterexample to claim C4: a database with one pending chat and one
pending document.  The pending set contains the document, the push
transmits a payload, yet no record with the document's id is in it — the
payload carries only chats and messages.  Moreover, with only the document
pending, push makes no network call at all even though the pending set is
nonempty. -/
theorem push_payload_omits_documents_cex :
    ((getPendingSyncRecords
        { chats := [{ localId := 1, id := "c1", userId := some "u",
                      title := some "t", createdAt := 1, updatedAt := 2,
                      deletedAt := none, syncStatus := SyncStatus.pending }],
          messages := [],
          documents := [{ id := "d1", userId := some "u", name := "doc",
                          type := "text/plain", content := some "x",
                          embedding := none, createdAt := 1, updatedAt := 2,
                          deletedAt := none, syncStatus := SyncStatus.pending }],
          nextLocalId := 2, lastSyncAt := none }).documents.map
        (fun d => d.id) = ["d1"]) ∧
    ((clientPush
        { chats := [{ localId := 1, id := "c1", userId := some "u",
                      title := some "t", createdAt := 1, updatedAt := 2,
                      deletedAt := none, syncStatus := SyncStatus.pending }],
          messages := [],
          documents := [{ id := "d1", userId := some "u", name := "doc",
                          type := "text/plain", content := some "x",
                          embedding := none, createdAt := 1, updatedAt := 2,
                          deletedAt := none, syncStatus := SyncStatus.pending }],
          nextLocalId := 2, lastSyncAt := none }
        { syncedAt := 7,
          results := { chats := [], messages := [], documents := [] } }).1 =
      some { chats := [{ id := "c1", title := some "t", createdAt := 1,
                         updatedAt := 2, deletedAt := none }],
             messages := [] }) ∧
    (clientPush
        { chats := [], messages := [],
          documents := [{ id := "d1", userId := some "u", name := "doc",
                          type := "text/plain", content := some "x",
                          embedding := none, createdAt := 1, updatedAt := 2,
                          deletedAt := none, syncStatus := SyncStatus.pending }],
          nextLocalId := 1, lastSyncAt := none }
        { syncedAt := 7,
          results := { chats := [], messages := [], documents := [] } } =
      (none,
       { chats := [], messages := [],
         documents := [{ id := "d1", userId := some "u", name := "doc",
                         type := "text/plain", content := some "x",
                         embedding := none, createdAt := 1, updatedAt := 2,
                         deletedAt := none, syncStatus := SyncStatus.pending }],
         nextLocalId := 1, lastSyncAt := none }, 0)) := by
  exact ⟨rfl, rfl, rfl⟩

/-- Claim C4 (amended): `push()` reads the pending set across all three
kinds, but the transmitted payload carries only chats and messages — every
pending chat, every pending message whose parent chat resolves to a durable
id, and nothing else; pending documents are never transmitted.  The
no-network early return fires exactly when pending chats and pending
messages are both empty, regardless of pending documents. -/
theorem push_payload_contents_amended :
    (∀ (db : ClientDB) (resp : PushResponse),
       (getPendingSyncRecords db).chats.length = 0 →
       (getPendingSyncRecords db).messages.length = 0 →
       clientPush db resp = (none, db, 0)) ∧
    (∀ (db : ClientDB) (resp : PushResponse),
       ¬((getPendingSyncRecords db).chats.length = 0 ∧
         (getPendingSyncRecords db).messages.length = 0) →
       (clientPush db resp).1 = some (clientPushPayload db)) ∧
    (∀ (db : ClientDB) (c : LocalChat),
       c ∈ (getPendingSyncRecords db).chats →
       chatToWire c ∈ (clientPushPayload db).chats) ∧
    (∀ (db : ClientDB) (m : LocalMessage) (cid : String),
       m ∈ (getPendingSyncRecords db).messages →
       resolveMessageChatId db m = some cid →
       ({ id := m.id, chatId := cid, role := m.role, content := m.content,
          createdAt := m.createdAt, updatedAt := m.updatedAt,
          deletedAt := m.deletedAt } : WireMessage) ∈
         (clientPushPayload db).messages) ∧
    (∀ (db : ClientDB) (w : WireMessage),
       w ∈ (clientPushPayload db).messages →
       ∃ m, m ∈ (getPendingSyncRecords db).messages ∧
         (resolveMessageChatId db m).map (fun cid =>
           ({ id := m.id, chatId := cid, role := m.role, content := m.content,
              createdAt := m.createdAt, updatedAt := m.updatedAt,
              deletedAt := m.deletedAt } : WireMessage)) = some w) := by
  refine ⟨?_, ?_, ?_, ?_, ?_⟩
  · intro db resp h1 h2
    have h1' := List.length_eq_zero.mp h1
    have h2' := List.length_eq_zero.mp h2
    simp [clientPush, h1', h2']
  · intro db resp h
    simp only [List.length_eq_zero] at h
    simp [clientPush, h]
  · intro db c hc
    simpa [clientPushPayload] using List.mem_map_of_mem chatToWire hc
  · intro db m cid hm hres
    simp only [clientPushPayload, List.mem_filterMap]
    exact ⟨m, hm, by simp [hres]⟩
  · intro db w hw
    simpa [clientPushPayload, List.mem_filterMap] using hw

/-- Witness for C4 (amended): a concrete pending chat lands in the payload,
and a database with only a pending document takes the no-network return. -/
theorem push_payload_contents_amended_witness :
    clientPush
      { chats := [], messages := [],
        documents := [{ id := "d1", userId := some "u", name := "doc",
                        type := "text/plain", content := some "x",
                        embedding := none, createdAt := 1, updatedAt := 2,
                        deletedAt := none, syncStatus := SyncStatus.pending }],
        nextLocalId := 1, lastSyncAt := none }
      { syncedAt := 7,
        results := { chats := [], messages := [], documents := [] } } =
      (none,
       { chats := [], messages := [],
         documents := [{ id := "d1", userId := some "u", name := "doc",
                         type := "text/plain", content := some "x",
                         embedding := none, createdAt := 1, updatedAt := 2,
                         deletedAt := none, syncStatus := SyncStatus.pending }],
         nextLocalId := 1, lastSyncAt := none }, 0) ∧
    chatToWire
      { localId := 1, id := "c1", userId := some "u", title := some "t",
        createdAt := 1, updatedAt := 2, deletedAt := none,
        syncStatus := SyncStatus.pending } ∈
      (clientPushPayload
        { chats := [{ localId := 1, id := "c1", userId := some "u",
                      title := some "t", createdAt := 1, updatedAt := 2,
                      deletedAt := none, syncStatus := SyncStatus.pending }],
          messages := [], documents := [], nextLocalId := 2,
          lastSyncAt := none }).chats := by
  constructor
  · exact push_payload_contents_amended.1 _ _ (by decide) (by decide)
  · exact push_payload_contents_amended.2.2.1 _ _ (by decide)

/-- Claim C5: last-write-wins is strict on both sides.  Server push: a valid,
owned record whose `updatedAt` is at most the stored one is acknowledged but
leaves the store entirely unchanged; the stored row is overwritten exactly
when the incoming `updatedAt` is strictly greater.  Client pull: `mergeChat`
(`mergeMessage`, `mergeDocument`) is a no-op returning `false` when the
incoming `updatedAt` is at most the local one, and overwrites only on
strictly greater. -/
theorem lww_strict_both_sides :
    (∀ (caller : String) (acc : ServerStore × List PushAck × List PushErr)
       (c : WireChat) (ex : SChat),
       validateChatTitle c.title = true →
       acc.1.chats.find? (fun x => x.id == c.id) = some ex →
       ex.userId = caller →
       c.updatedAt ≤ ex.updatedAt →
       chatStep caller acc c =
         (acc.1, acc.2.1 ++ [{ id := c.id, synced := true }], acc.2.2)) ∧
    (∀ (caller : String) (acc : ServerStore × List PushAck × List PushErr)
       (c : WireChat) (ex : SChat),
       validateChatTitle c.title = true →
       acc.1.chats.find? (fun x => x.id == c.id) = some ex →
       ex.userId = caller →
       ex.updatedAt < c.updatedAt →
       chatStep caller acc c =
         ({ acc.1 with chats := acc.1.chats.map (fun x =>
              if x.id == c.id then
                { x with title := c.title, updatedAt := c.updatedAt,
                         deletedAt := c.deletedAt }
              else x) },
          acc.2.1 ++ [{ id := c.id, synced := true }], acc.2.2)) ∧
    (∀ (caller : String) (acc : ServerStore × List PushAck × List PushErr)
       (m : WireMessage) (chat : SChat) (ex : SMessage),
       validateMessageFields m.role m.content = true →
       acc.1.chats.find? (fun c => c.id == m.chatId) = some chat →
       chat.userId = caller →
       acc.1.messages.find? (fun x => x.id == m.id) = some ex →
       m.updatedAt ≤ ex.updatedAt →
       messageStep caller acc m =
         (acc.1, acc.2.1 ++ [{ id := m.id, synced := true }], acc.2.2)) ∧
    (∀ (caller : String) (acc : ServerStore × List PushAck × List PushErr)
       (d : WireDocument) (ex : SDocument),
       validateDocumentFields d.name d.type = true →
       acc.1.documents.find? (fun x => x.id == d.id) = some ex →
       ex.userId = caller →
       d.updatedAt ≤ ex.updatedAt →
       documentStep caller acc d =
         (acc.1, acc.2.1 ++ [{ id := d.id, synced := true }], acc.2.2)) ∧
    (∀ (db : ClientDB) (c : WireChat) (uid : Option String) (ex : LocalChat),
       db.chats.find? (fun x => x.id == c.id) = some ex →
       c.updatedAt ≤ ex.updatedAt →
       mergeChat db c uid = (db, false)) ∧
    (∀ (db : ClientDB) (c : WireChat) (uid : Option String) (ex : LocalChat),
       db.chats.find? (fun x => x.id == c.id) = some ex →
       ex.updatedAt < c.updatedAt →
       mergeChat db c uid =
         ({ db with chats := db.chats.map (fun x =>
              if x.id == c.id then
                { x with title := c.title, updatedAt := c.updatedAt,
                         deletedAt := c.deletedAt,
                         syncStatus := SyncStatus.synced }
              else x) }, true)) ∧
    (∀ (db : ClientDB) (m : WireMessage) (ex : LocalMessage),
       db.messages.find? (fun x => x.id == m.id) = some ex →
       m.updatedAt ≤ ex.updatedAt →
       mergeMessage db m = (db, false)) ∧
    (∀ (db : ClientDB) (d : WireDocument) (uid : Option String)
       (ex : LocalDocument),
       db.documents.find? (fun x => x.id == d.id) = some ex →
       d.updatedAt ≤ ex.updatedAt →
       mergeDocument db d uid = (db, false)) := by
  refine ⟨?_, ?_, ?_, ?_, ?_, ?_, ?_, ?_⟩
  · intro caller acc c ex hv hf ho hle
    simp [chatStep, hv, hf, ho, Nat.not_lt.mpr hle]
  · intro caller acc c ex hv hf ho hlt
    simp [chatStep, hv, hf, ho, hlt]
  · intro caller acc m chat ex hv hfc ho hfm hle
    simp [messageStep, hv, hfc, ho, hfm, Nat.not_lt.mpr hle]
  · intro caller acc d ex hv hf ho hle
    simp [documentStep, hv, hf, ho, Nat.not_lt.mpr hle]
  · intro db c uid ex hf hle
    simp [mergeChat, hf, Nat.not_lt.mpr hle]
  · intro db c uid ex hf hlt
    simp [mergeChat, hf, hlt]
  · intro db m ex hf hle
    simp [mergeMessage, hf, Nat.not_lt.mpr hle]
  · intro db d uid ex hf hle
    simp [mergeDocument, hf, Nat.not_lt.mpr hle]

/-- Witness for C5: a concrete equal-timestamp tie is a no-op on both the
server store and the client store. -/
theorem lww_strict_both_sides_witness :
    chatStep "u1"
      ({ chats := [{ id := "c1", userId := "u1", title := some "old",
                     createdAt := 1, updatedAt := 7, deletedAt := none }],
         messages := [], documents := [] }, [], [])
      { id := "c1", title := some "new", createdAt := 1, updatedAt := 7,
        deletedAt := none } =
      ({ chats := [{ id := "c1", userId := "u1", title := some "old",
                     createdAt := 1, updatedAt := 7, deletedAt := none }],
         messages := [], documents := [] },
       [{ id := "c1", synced := true }], []) ∧
    mergeChat
      { chats := [{ localId := 1, id := "c1", userId := some "u1",
                    title := some "mine", createdAt := 1, updatedAt := 7,
                    deletedAt := none, syncStatus := SyncStatus.synced }],
        messages := [], documents := [], nextLocalId := 2,
        lastSyncAt := none }
      { id := "c1", title := some "server", createdAt := 1, updatedAt := 7,
        deletedAt := none } none =
      ({ chats := [{ localId := 1, id := "c1", userId := some "u1",
                     title := some "mine", createdAt := 1, updatedAt := 7,
                     deletedAt := none, syncStatus := SyncStatus.synced }],
         messages := [], documents := [], nextLocalId := 2,
         lastSyncAt := none }, false) := by
  constructor
  · exact lww_strict_both_sides.1 "u1" _ _
      { id := "c1", userId := "u1", title := some "old",
        createdAt := 1, updatedAt := 7, deletedAt := none }
      (by decide) (by decide) (by decide) (by decide)
  · exact lww_strict_both_sides.2.2.2.2.1 _ _ none
      { localId := 1, id := "c1", userId := some "u1", title := some "mine",
        createdAt := 1, updatedAt := 7, deletedAt := none,
        syncStatus := SyncStatus.synced }
      (by decide) (by decide)

/-- Claim C6: `handlePull` returns exactly the caller-owned records with
`updatedAt` strictly greater than `since` (messages owned through their
chat), the filters never consult `deletedAt` (tombstones are delivered with
their `deletedAt` intact), `syncedAt` is the timestamp generated at query
time, and a null `since` behaves as the epoch bound. -/
theorem server_pull_characterization :
    (∀ (st : ServerStore) (owner : String) (since : Option Nat) (now : Nat),
       (serverPull st owner since now).syncedAt = now) ∧
    (∀ (st : ServerStore) (owner : String) (t : Nat) (c : SChat),
       c ∈ chatsUpdatedSince st owner t ↔
         c ∈ st.chats ∧ c.userId = owner ∧ t < c.updatedAt) ∧
    (∀ (st : ServerStore) (owner : String) (t : Nat) (m : SMessage),
       m ∈ messagesUpdatedSince st owner t ↔
         m ∈ st.messages ∧
         (∃ ch, ch ∈ st.chats ∧ ch.id = m.chatId ∧ ch.userId = owner) ∧
         t < m.updatedAt) ∧
    (∀ (st : ServerStore) (owner : String) (t : Nat) (d : SDocument),
       d ∈ documentsUpdatedSince st owner t ↔
         d ∈ st.documents ∧ d.userId = owner ∧ t < d.updatedAt) ∧
    (∀ (st : ServerStore) (owner : String) (since : Option Nat) (now : Nat)
       (c : SChat),
       c ∈ st.chats → c.userId = owner →
       since.getD epochTime < c.updatedAt →
       sChatToWire c ∈ (serverPull st owner since now).chats ∧
         (sChatToWire c).deletedAt = c.deletedAt) ∧
    (∀ (st : ServerStore) (owner : String) (now : Nat),
       serverPull st owner none now = serverPull st owner (some epochTime) now) := by
  refine ⟨?_, ?_, ?_, ?_, ?_, ?_⟩
  · intro st owner since now
    simp [serverPull]
  · intro st owner t c
    simp [chatsUpdatedSince, List.mem_filter, and_assoc]
  · intro st owner t m
    simp [messagesUpdatedSince, List.mem_filter, List.any_eq_true, and_assoc]
  · intro st owner t d
    simp [documentsUpdatedSince, List.mem_filter, and_assoc]
  · intro st owner since now c hc ho hlt
    refine ⟨?_, rfl⟩
    have hmem : c ∈ chatsUpdatedSince st owner (since.getD epochTime) := by
      simp [chatsUpdatedSince, List.mem_filter, hc, ho, hlt]
    cases since with
    | none =>
        simpa [serverPull] using
          List.mem_map_of_mem sChatToWire (by simpa using hmem)
    | some t =>
        simpa [serverPull] using
          List.mem_map_of_mem sChatToWire (by simpa using hmem)
  · intro st owner now
    rfl

/-- Witness for C6: a tombstoned chat (`deletedAt` set) newer than the
checkpoint is delivered by a concrete pull, with its tombstone intact. -/
theorem server_pull_characterization_witness :
    sChatToWire
      { id := "c1", userId := "u1", title := some "t", createdAt := 1,
        updatedAt := 9, deletedAt := some 9 } ∈
      (serverPull
        { chats := [{ id := "c1", userId := "u1", title := some "t",
                      createdAt := 1, updatedAt := 9, deletedAt := some 9 }],
          messages := [], documents := [] }
        "u1" (some 5) 42).chats ∧
    (sChatToWire
      { id := "c1", userId := "u1", title := some "t", createdAt := 1,
        updatedAt := 9, deletedAt := some 9 }).deletedAt = some 9 :=
  server_pull_characterization.2.2.2.2.1 _ "u1" (some 5) 42
    { id := "c1", userId := "u1", title := some "t", createdAt := 1,
      updatedAt := 9, deletedAt := some 9 }
    (by decide) (by decide) (by decide)

/-- Claim C7: per-record validation failures are isolated.  A title longer
than 200 characters fails validation; a chat failing validation contributes
exactly one error entry and leaves the store and acknowledgement list
untouched while the records before and after it are processed exactly as
they would otherwise be; a valid new chat is inserted and acknowledged
`synced: true`; and on the client a record whose id is not in the
acknowledged list keeps its `syncStatus` (stays `Pending`). -/
theorem push_partial_failure_isolation :
    (∀ t : String, 200 < t.length → validateChatTitle (some t) = false) ∧
    (∀ (caller : String) (acc : ServerStore × List PushAck × List PushErr)
       (pre : List WireChat) (bad : WireChat) (post : List WireChat),
       validateChatTitle bad.title = false →
       processChats caller acc (pre ++ bad :: post) =
         processChats caller
           ((processChats caller acc pre).1,
            (processChats caller acc pre).2.1,
            (processChats caller acc pre).2.2 ++
              [{ type := "chat", id := bad.id,
                 error := "Title must be at most 200 characters" }]) post) ∧
    (∀ (caller : String) (acc : ServerStore × List PushAck × List PushErr)
       (c : WireChat),
       validateChatTitle c.title = true →
       acc.1.chats.find? (fun x => x.id == c.id) = none →
       chatStep caller acc c =
         ({ acc.1 with chats := acc.1.chats ++
              [{ id := c.id, userId := caller,
                 title := jsStringOrNull c.title, createdAt := c.createdAt,
                 updatedAt := c.updatedAt, deletedAt := c.deletedAt }] },
          acc.2.1 ++ [{ id := c.id, synced := true }], acc.2.2)) ∧
    (∀ (db : ClientDB) (ids : List String) (c : LocalChat),
       c ∈ db.chats → c.id ∉ ids →
       c ∈ (markChatsAsSynced db ids).chats) := by
  refine ⟨?_, ?_, ?_, ?_⟩
  · intro t h
    have hne : ¬ t = "" := by
      intro he
      rw [he] at h
      simp at h
    simp [validateChatTitle, hne, decide_eq_false_iff_not]
    omega
  · intro caller acc pre bad post hv
    have hbad : ∀ acc' : ServerStore × List PushAck × List PushErr,
        chatStep caller acc' bad =
          (acc'.1, acc'.2.1, acc'.2.2 ++
            [{ type := "chat", id := bad.id,
               error := "Title must be at most 200 characters" }]) := by
      intro acc'
      simp [chatStep, hv]
    rw [processChats_append, processChats_cons, hbad]
  · intro caller acc c hv hf
    simp [chatStep, hv, hf]
  · intro db ids c hc hni
    have hmap := List.mem_map_of_mem
      (fun x : LocalChat =>
        if x.id ∈ ids then { x with syncStatus := SyncStatus.synced } else x) hc
    simpa [markChatsAsSynced, hni] using hmap

set_option maxRecDepth 4000 in
/-- Witness for C7: the spec's three-chat batch — chat 2 carries a 201
character title, chats 1 and 3 are valid — on an empty store; chat 2 only
appends its validation error between the processing of chats 1 and 3, and
a client chat absent from the acknowledged ids survives `markAsSynced`
untouched. -/
theorem push_partial_failure_isolation_witness :
    processChats "u1" ({ chats := [], messages := [], documents := [] }, [], [])
      ([{ id := "c1", title := some "first", createdAt := 1, updatedAt := 1,
          deletedAt := none }] ++
       { id := "c2", title := some (String.mk (List.replicate 201 'a')),
         createdAt := 1, updatedAt := 1, deletedAt := none } ::
       [{ id := "c3", title := some "third", createdAt := 1, updatedAt := 1,
          deletedAt := none }]) =
      processChats "u1"
        ((processChats "u1"
            ({ chats := [], messages := [], documents := [] }, [], [])
            [{ id := "c1", title := some "first", createdAt := 1,
               updatedAt := 1, deletedAt := none }]).1,
         (processChats "u1"
            ({ chats := [], messages := [], documents := [] }, [], [])
            [{ id := "c1", title := some "first", createdAt := 1,
               updatedAt := 1, deletedAt := none }]).2.1,
         (processChats "u1"
            ({ chats := [], messages := [], documents := [] }, [], [])
            [{ id := "c1", title := some "first", createdAt := 1,
               updatedAt := 1, deletedAt := none }]).2.2 ++
           [{ type := "chat", id := "c2",
              error := "Title must be at most 200 characters" }])
        [{ id := "c3", title := some "third", createdAt := 1, updatedAt := 1,
           deletedAt := none }] ∧
    ({ localId := 1, id := "c2", userId := some "u1", title := some "t",
       createdAt := 1, updatedAt := 1, deletedAt := none,
       syncStatus := SyncStatus.pending } : LocalChat) ∈
      (markChatsAsSynced
        { chats := [{ localId := 1, id := "c2", userId := some "u1",
                      title := some "t", createdAt := 1, updatedAt := 1,
                      deletedAt := none, syncStatus := SyncStatus.pending }],
          messages := [], documents := [], nextLocalId := 2,
          lastSyncAt := none }
        ["c1", "c3"]).chats := by
  constructor
  · exact push_partial_failure_isolation.2.1 "u1" _ _ _ _ (by decide)
  · exact push_partial_failure_isolation.2.2.2 _ ["c1", "c3"] _
      (by decide) (by decide)

/-- Claim C8: `sync()` is single-flight.  An invocation whose entry step
observes `isSyncing = true` completes at once with the zero result `{0, 0}`,
leaving the flag, the network trace and every other invocation untouched;
and in every interleaving of two rapid invocations in which the second
starts while the first is in flight, the run produces exactly one push
request and one pull request, the first invocation completing and the
second returning the zero result. -/
theorem sync_single_flight :
    (∀ (cfg : OrchConfig) (i : Nat),
       cfg.tasks.get? i = some SyncPhase.entry →
       cfg.flag = true →
       orchStep cfg i =
         { flag := cfg.flag, tasks := cfg.tasks.set i SyncPhase.doneZero,
           trace := cfg.trace }) ∧
    (∀ sched ∈ rapidSchedules,
       runSched twoSyncInit sched =
         { flag := false,
           tasks := [SyncPhase.doneCompleted, SyncPhase.doneZero],
           trace := [NetCall.pushCall, NetCall.pullCall] }) := by
  constructor
  · intro cfg i h1 h2
    rw [List.get?_eq_getElem?] at h1
    simp [orchStep, h1, h2]
  · decide

/-- Witness for C8: the interleaving in which the second invocation enters
between the first invocation's push and pull. -/
theorem sync_single_flight_witness :
    orchStep
      { flag := true, tasks := [SyncPhase.doPull, SyncPhase.entry],
        trace := [NetCall.pushCall] } 1 =
      { flag := true, tasks := [SyncPhase.doPull, SyncPhase.doneZero],
        trace := [NetCall.pushCall] } ∧
    runSched twoSyncInit [0, 0, 1, 0, 0] =
      { flag := false,
        tasks := [SyncPhase.doneCompleted, SyncPhase.doneZero],
        trace := [NetCall.pushCall, NetCall.pullCall] } := by
  constructor
  · have h := sync_single_flight.1
      { flag := true, tasks := [SyncPhase.doPull, SyncPhase.entry],
        trace := [NetCall.pushCall] } 1 (by decide) (by decide)
    simpa using h
  · exact sync_single_flight.2 [0, 0, 1, 0, 0] (by decide)

/-- Counterexample to claim C9: two consecutive failed `sync()` invocations
leave two retry timers pending — the catch block runs
`this.retryTimeout = setTimeout(...)` without clearing the previously
stored handle, so the earlier retry (timer 0) is still scheduled when the
second failure schedules timer 1. -/
theorem retry_timers_accumulate_cex :
    (scheduleRetryOnFailure (scheduleRetryOnFailure timersInit)).pendingTimers =
      [0, 1] ∧
    (scheduleRetryOnFailure (scheduleRetryOnFailure timersInit)).retryTimeout =
      some 1 ∧
    2 ≤ (scheduleRetryOnFailure
          (scheduleRetryOnFailure timersInit)).pendingTimers.length := by
  exact ⟨rfl, rfl, by decide⟩

/-- Claim C9 (amended): a failed `sync()` schedules exactly one new retry
and overwrites the stored handle, but cancels nothing — every previously
pending timer stays pending; only `stopAutoSync` clears the stored retry
handle and removes that timer from the pending queue. -/
theorem retry_scheduling_amended :
    (∀ s : TimerState,
       (scheduleRetryOnFailure s).pendingTimers = s.pendingTimers ++ [s.nextId] ∧
       (scheduleRetryOnFailure s).retryTimeout = some s.nextId) ∧
    (∀ s : TimerState, (stopAutoSync s).retryTimeout = none) ∧
    (∀ (s : TimerState) (h : Nat),
       s.retryTimeout = some h →
       h ∉ (stopAutoSync s).pendingTimers) := by
  refine ⟨?_, ?_, ?_⟩
  · intro s
    exact ⟨rfl, rfl⟩
  · intro s
    cases hsi : s.syncInterval <;> cases hrt : s.retryTimeout <;>
      simp [stopAutoSync, hsi, hrt]
  · intro s h hrt
    cases hsi : s.syncInterval <;>
      simp [stopAutoSync, hsi, hrt, List.mem_filter]

/-- Witness for C9 (amended): after two failures the stored handle (timer 1)
is removed from the pending queue by `stopAutoSync`. -/
theorem retry_scheduling_amended_witness :
    (1 : Nat) ∉
      (stopAutoSync
        { nextId := 2, pendingTimers := [0, 1], retryTimeout := some 1,
          syncInterval := none }).pendingTimers :=
  retry_scheduling_amended.2.2
    { nextId := 2, pendingTimers := [0, 1], retryTimeout := some 1,
      syncInterval := none } 1 rfl
